import Mathlib

/-!
# VoiceChannel (src/structures/VoiceChannel.js)

A shallow embedding of the `VoiceChannel` class: the object graph a method
reads through `this` (`this.id`, `this.guild`, `this.client`) is a value of
type `VoiceChannel`; a method that calls a collaborator returns an `Outcome`
holding the returned value, the object graph after the call and the ordered
list of collaborator calls it made.
-/

namespace VoiceChannelModel

/-- Discord ids are strings compared with `===`. -/
abbrev Snowflake := String

/-- The part of `connection.channel` the class reads: `connection.channel.id`. -/
structure ChannelRef where
  id : Snowflake
deriving DecidableEq, Repr

/-- A `VoiceConnection` object. `handle` stands for the object identity
(two connection objects are the same instance iff they are equal). -/
structure VoiceConnection where
  channel : ChannelRef
  handle : Nat
deriving DecidableEq, Repr

/-- A `Collection` (a JS `Map`) read through `get`: `undefined` is `none`. -/
structure Collection (V : Type) where
  get : Snowflake → Option V

/-- Map `set`: the key now resolves to the value, other keys are kept. -/
def Collection.set {V : Type} (m : Collection V) (key : Snowflake) (v : V) : Collection V :=
  ⟨fun g => if g = key then some v else m.get g⟩

/-- The empty `Collection`. -/
def Collection.empty {V : Type} : Collection V := ⟨fun _ => none⟩

/-- The guild as the class reads it: `guild.id` and `guild.voiceConnection`. -/
structure Guild where
  id : Snowflake
  voiceConnection : Option VoiceConnection
deriving DecidableEq, Repr

/-- The client user, `client.user`. -/
structure User where
  id : Snowflake
deriving DecidableEq, Repr

/-- The voice manager `client.voice` as the class reads it: `connections`. -/
structure ClientVoiceManager where
  connections : Collection VoiceConnection

/-- The client as the class reads it: `browser`, `user`, `voice`. -/
structure Client where
  browser : Bool
  user : User
  voice : ClientVoiceManager

/-- A `VoiceChannel` object together with what it reaches through
`this.guild` and `this.client`. `bitrate` and `userLimit` are the fields
assigned in `setup`; `members` is the collection created by the constructor
(member ids). -/
structure VoiceChannel where
  id : Snowflake
  guild : Guild
  client : Client
  members : List Snowflake
  bitrate : Int
  userLimit : Int

/-- The inherited `permissionsFor(user).hasPermission(name)`, whose body is in
`GuildChannel` and is taken as a parameter: the channel, the user, the
permission name give the boolean answer. -/
abbrev PermissionEvaluator := VoiceChannel → User → String → Bool

/-- Modelled from the spec: the failure kinds of section 7. The source rejects
with plain `Error` objects and declares no kinds. -/
inductive ErrorKind where
  | InvalidConfiguration
  | PermissionDenied
  | EnvironmentUnsupported
  | ConnectionFailed
  | RemoteRejected
deriving DecidableEq, Repr

/-- A JS `Error`: its message, and the failure kind of section 7 it stands for. -/
structure VoiceError where
  kind : ErrorKind
  message : String
deriving DecidableEq, Repr

/-- A settled promise: rejected with an error or resolved with a value. -/
abbrev Promise (α : Type) := Except VoiceError α

/-- The object literal passed to `edit`: `{ bitrate }` or `{ userLimit }`. -/
structure ChannelData where
  bitrate : Option Int
  userLimit : Option Int
deriving DecidableEq, Repr

/-- A call made to a collaborator. -/
inductive Call where
  | joinChannel (channel : VoiceChannel)
  | disconnect (connection : VoiceConnection)
  | connect (channelId : Snowflake)
  | remoteSync (channelId : Snowflake) (data : ChannelData)

/-- What a method call leaves behind: the value it returns, the object graph
afterwards, and the collaborator calls made, in order. -/
structure Outcome (α : Type) where
  value : α
  self : VoiceChannel
  calls : List Call

/-! ## Getters -/

/-- The getter `connection` (lines 42-46). -/
def connection (c : VoiceChannel) : Option VoiceConnection :=
  match c.guild.voiceConnection with
  | some k => if k.channel.id = c.id then some k else none
  | none => none

/-- The getter `joinable` (lines 52-55). -/
def joinable (permissionsFor : PermissionEvaluator) (c : VoiceChannel) : Bool :=
  if c.client.browser then false
  else permissionsFor c c.client.user "CONNECT"

/-- The getter `speakable` (lines 61-63). -/
def speakable (permissionsFor : PermissionEvaluator) (c : VoiceChannel) : Bool :=
  permissionsFor c c.client.user "SPEAK"

/-! ## Methods -/

/-- The rejection of `join` in a browser (line 103); the specification calls
this failure `EnvironmentUnsupported`. -/
def browserError : VoiceError :=
  ⟨ErrorKind.EnvironmentUnsupported, "Voice connections are not available in browsers."⟩

/-- The method `join` (lines 102-105). `joinChannel` is
`client.voice.joinChannel`, a parameter: called with the channel it gives its
promise, the object graph afterwards and the calls it made in turn. -/
def join (joinChannel : VoiceChannel → Outcome (Promise VoiceConnection))
    (c : VoiceChannel) : Outcome (Promise VoiceConnection) :=
  if c.client.browser then ⟨Except.error browserError, c, []⟩
  else
    let r := joinChannel c
    ⟨r.value, r.self, Call.joinChannel c :: r.calls⟩

/-- The method `leave` (lines 113-117). `disconnect` is the effect of
`connection.disconnect()` on the object graph, a parameter. -/
def leave (disconnect : VoiceConnection → VoiceChannel → VoiceChannel)
    (c : VoiceChannel) : Outcome Unit :=
  if c.client.browser then ⟨(), c, []⟩
  else
    match c.client.voice.connections.get c.guild.id with
    | some k =>
      if k.channel.id = c.id then ⟨(), disconnect k c, [Call.disconnect k]⟩
      else ⟨(), c, []⟩
    | none => ⟨(), c, []⟩

/-- The method `setBitrate` (lines 75-77): `this.edit({ bitrate })`, with the
inherited `edit` a parameter. -/
def setBitrate (edit : VoiceChannel → ChannelData → Outcome (Promise VoiceChannel))
    (c : VoiceChannel) (bitrate : Int) : Outcome (Promise VoiceChannel) :=
  edit c ⟨some bitrate, none⟩

/-- The method `setUserLimit` (lines 89-91): `this.edit({ userLimit })`. -/
def setUserLimit (edit : VoiceChannel → ChannelData → Outcome (Promise VoiceChannel))
    (c : VoiceChannel) (userLimit : Int) : Outcome (Promise VoiceChannel) :=
  edit c ⟨none, some userLimit⟩

/-! ## Collaborators whose code is not in `VoiceChannel.js` -/

/-- Modelled from the spec: the registry without the entry that owns the
connection (section 3: a connection is "owned exclusively by the Connection
Registry entry for its guild"); every key that resolved to `k` now resolves to
nothing, other keys are kept. -/
def Collection.removeOwner (m : Collection VoiceConnection) (k : VoiceConnection) :
    Collection VoiceConnection :=
  ⟨fun g => if m.get g = some k then none else m.get g⟩

/-- Modelled from the spec: the registry operation `remove(guildId)` of
section 4.4 (a Map `delete`); the key resolves to nothing, other keys are
kept. -/
def Collection.delete {V : Type} (m : Collection V) (key : Snowflake) : Collection V :=
  ⟨fun g => if g = key then none else m.get g⟩

/-- Modelled from the spec: the object graph after the voice session manager
has written the registry; `guild.voiceConnection` is read again from the
registry (section 6: it "mirrors registry get"). -/
def withRegistry (c : VoiceChannel) (connections : Collection VoiceConnection) : VoiceChannel :=
  { c with
    client := { c.client with voice := ⟨connections⟩ }
    guild := { c.guild with voiceConnection := connections.get c.guild.id } }

/-- Modelled from the spec: `VoiceConnection.disconnect` is missing from the
sources. Section 4.3: leaving "tears down the transport handle, and removes
the registry entry"; section 6: `guild.voiceConnection` "mirrors registry
get". The effect of `k.disconnect()` on the object graph is therefore: the
registry entry owning `k` is removed and the guild voice connection is what
the registry now holds for the guild. -/
def disconnectSpec (k : VoiceConnection) (c : VoiceChannel) : VoiceChannel :=
  withRegistry c (c.client.voice.connections.removeOwner k)

/-- Modelled from the spec: the failure of kind `PermissionDenied`. -/
def permissionDenied : VoiceError := ⟨ErrorKind.PermissionDenied, "PermissionDenied"⟩

/-- Modelled from the spec: the failure of kind `ConnectionFailed`. -/
def connectionFailed : VoiceError := ⟨ErrorKind.ConnectionFailed, "ConnectionFailed"⟩

/-- Modelled from the spec: the failure of kind `InvalidConfiguration`. -/
def invalidConfiguration : VoiceError :=
  ⟨ErrorKind.InvalidConfiguration, "InvalidConfiguration"⟩

/-- Modelled from the spec: the failure of kind `RemoteRejected`. -/
def remoteRejected : VoiceError := ⟨ErrorKind.RemoteRejected, "RemoteRejected"⟩

/-- Modelled from the spec: step 5 of `join` in section 4.3, part of the voice
session manager that is missing from the sources. The transport negotiator
`connect` (section 6) is invoked once; on success the new connection, bound to
this channel, is published into the registry under the guild id; on failure
any registry entry for the guild is cleared and `ConnectionFailed` is
surfaced. `before` are the calls already made by the caller. -/
def establish (connect : VoiceChannel → Option Nat) (c : VoiceChannel) (before : List Call) :
    Outcome (Promise VoiceConnection) :=
  match connect c with
  | some h =>
    let k : VoiceConnection := ⟨⟨c.id⟩, h⟩
    ⟨Except.ok k, withRegistry c (c.client.voice.connections.set c.guild.id k),
      before ++ [Call.connect c.id]⟩
  | none =>
    ⟨Except.error connectionFailed,
      withRegistry c (c.client.voice.connections.delete c.guild.id),
      before ++ [Call.connect c.id]⟩

/-- Modelled from the spec: `client.voice.joinChannel` (the voice session
manager, `ClientVoiceManager`) is missing from the sources. Section 4.3,
`join(channel, actor)`, steps 1 to 5, each operation running to completion
(every registry entry is `Connected` between operations):
1. `EnvironmentUnsupported` if the environment cannot host voice sessions;
2. `PermissionDenied` if `canConnect` is false;
3. an entry for this guild pointing at a different channel is torn down first;
4. an entry for this same channel is returned without renegotiating;
5. otherwise the transport negotiator is invoked (`establish`). -/
def joinChannelSpec (permissionsFor : PermissionEvaluator) (connect : VoiceChannel → Option Nat)
    (c : VoiceChannel) : Outcome (Promise VoiceConnection) :=
  if c.client.browser then ⟨Except.error browserError, c, []⟩
  else if permissionsFor c c.client.user "CONNECT" = false then
    ⟨Except.error permissionDenied, c, []⟩
  else
    match c.client.voice.connections.get c.guild.id with
    | some k =>
      if k.channel.id = c.id then ⟨Except.ok k, c, []⟩
      else establish connect (disconnectSpec k c) [Call.disconnect k]
    | none => establish connect c []

/-- Modelled from the spec: the platform-defined bounds of section 4.1, whose
values the sources do not give; they are parameters. -/
structure PlatformBounds where
  maxBitrate : Int
  maxUserLimit : Int
deriving DecidableEq, Repr

/-- Modelled from the spec: the validation of section 4.1; a requested value
is absent, or a non-negative integer within the bound. -/
def withinBound (bound : Int) : Option Int → Bool
  | none => true
  | some v => decide (0 ≤ v) && decide (v ≤ bound)

/-- Modelled from the spec: the inherited `edit` (`GuildChannel.edit`) is
missing from the sources. Section 4.1, `configure(bitrate, userLimit)`:
"validates both are non-negative integers within platform-defined bounds;
returns an updated descriptor or fails with `InvalidConfiguration` if out of
range"; a valid request is sent to the remote authority (`remote`, section 6),
and on `RemoteRejected` the local fields are rolled back (section 7). -/
def editSpec (bounds : PlatformBounds) (remote : ChannelData → Bool)
    (c : VoiceChannel) (data : ChannelData) : Outcome (Promise VoiceChannel) :=
  if withinBound bounds.maxBitrate data.bitrate && withinBound bounds.maxUserLimit data.userLimit
  then
    if remote data then
      let updated : VoiceChannel :=
        { c with
          bitrate := data.bitrate.getD c.bitrate
          userLimit := data.userLimit.getD c.userLimit }
      ⟨Except.ok updated, updated, [Call.remoteSync c.id data]⟩
    else ⟨Except.error remoteRejected, c, [Call.remoteSync c.id data]⟩
  else ⟨Except.error invalidConfiguration, c, []⟩

/-- The calls to the transport negotiator in a list of calls. -/
def negotiations (calls : List Call) : Nat :=
  (calls.filter fun call => match call with
    | Call.connect _ => true
    | _ => false).length

/-- Modelled from the spec: the object graphs the class can be given. A
browser client hosts no voice session: line 103 says "Voice connections are
not available in browsers.", and the voice session manager (missing from the
sources) publishes no registry entry in an unsupported environment (section
4.3, step 1). So in a browser the registry has no entry for the guild and the
guild has no voice connection. -/
def receivable (c : VoiceChannel) : Prop :=
  c.client.browser = true →
    c.client.voice.connections.get c.guild.id = none ∧ c.guild.voiceConnection = none

/-! ## Concrete object graphs -/

/-- A connection bound to channel `c1`. -/
def conn1 : VoiceConnection := ⟨⟨"c1"⟩, 7⟩

/-- A registry holding `conn1` for guild `g1`. -/
def registry1 : Collection VoiceConnection := Collection.empty.set "g1" conn1

/-- Guild `g1` with `conn1` as its voice connection. -/
def guild1 : Guild := ⟨"g1", some conn1⟩

/-- Guild `g1` without a voice connection. -/
def guildIdle : Guild := ⟨"g1", none⟩

/-- A client outside a browser whose registry holds `conn1` for `g1`. -/
def client1 : Client := ⟨false, ⟨"u1"⟩, ⟨registry1⟩⟩

/-- A client inside a browser whose registry holds `conn1` for `g1`. -/
def clientBrowser : Client := ⟨true, ⟨"u1"⟩, ⟨registry1⟩⟩

/-- A client outside a browser with an empty registry. -/
def clientIdle : Client := ⟨false, ⟨"u1"⟩, ⟨Collection.empty⟩⟩

/-- Channel `c1` of guild `g1`, connected through `conn1`. -/
def chanA : VoiceChannel := ⟨"c1", guild1, client1, [], 64000, 10⟩

/-- Channel `c2` of the same guild `g1`. -/
def chanB : VoiceChannel := ⟨"c2", guild1, client1, [], 64000, 10⟩

/-- Channel `c1` of guild `g1`, connected through `conn1`, in a browser. -/
def chanBrowser : VoiceChannel := ⟨"c1", guild1, clientBrowser, [], 64000, 10⟩

/-- Channel `c1` of guild `g1` with no connection anywhere. -/
def chanIdle : VoiceChannel := ⟨"c1", guildIdle, clientIdle, [], 64000, 10⟩

/-- A browser client with an empty registry. -/
def clientBrowserIdle : Client := ⟨true, ⟨"u1"⟩, ⟨Collection.empty⟩⟩

/-- Channel `c1` of guild `g1` in a browser, with no connection anywhere. -/
def chanBrowserIdle : VoiceChannel := ⟨"c1", guildIdle, clientBrowserIdle, [], 64000, 10⟩

/-- A permission evaluator that grants everything. -/
def grantAll : PermissionEvaluator := fun _ _ _ => true

/-- A permission evaluator that grants everything but `CONNECT`. -/
def denyConnect : PermissionEvaluator := fun _ _ name => decide (name ≠ "CONNECT")

/-- A transport negotiator that always succeeds with handle 42. -/
def connectOk : VoiceChannel → Option Nat := fun _ => some 42

/-- A voice manager that resolves every request with `conn1` and changes
nothing. -/
def managerResolves : VoiceChannel → Outcome (Promise VoiceConnection) :=
  fun s => ⟨Except.ok conn1, s, []⟩

/-- A `disconnect` that leaves the object graph as it is. -/
def disconnectKeeps : VoiceConnection → VoiceChannel → VoiceChannel := fun _ s => s

/-- Platform bounds used in the examples. -/
def bounds1 : PlatformBounds := ⟨96000, 99⟩

/-- A remote authority that accepts every request. -/
def remoteAccept : ChannelData → Bool := fun _ => true

/-! ## The connection lookup -/

/-- The lookup resolves `k` exactly when `k` is the guild voice connection and
is bound to this channel. -/
theorem connection_some_iff (c : VoiceChannel) (k : VoiceConnection) :
    connection c = some k ↔ c.guild.voiceConnection = some k ∧ k.channel.id = c.id := by
  unfold connection
  cases hv : c.guild.voiceConnection with
  | none => simp
  | some k0 =>
    by_cases hid : k0.channel.id = c.id
    · simp only [hid, if_true]
      constructor
      · intro h
        cases h
        exact ⟨rfl, hid⟩
      · intro h
        exact h.1
    · simp only [hid, if_false]
      constructor
      · intro h
        cases h
      · intro h
        have hk : k0 = k := Option.some.inj h.1
        subst hk
        exact absurd h.2 hid

/-- C1: the `connection` lookup returns the guild voice connection exactly
when there is one and its channel id equals the id of this channel, and
returns null in every other case (no connection for the guild, or a connection
bound to a channel with another id). The lookup is a total function of the
object graph: it cannot fail and it returns no new state. -/
theorem connection_lookup (c : VoiceChannel) :
    (∀ k, connection c = some k ↔ c.guild.voiceConnection = some k ∧ k.channel.id = c.id) ∧
    (connection c = none ↔
      c.guild.voiceConnection = none ∨
      ∃ k, c.guild.voiceConnection = some k ∧ k.channel.id ≠ c.id) := by
  refine ⟨connection_some_iff c, ?_⟩
  unfold connection
  cases hv : c.guild.voiceConnection with
  | none => simp
  | some k0 =>
    by_cases hid : k0.channel.id = c.id
    · simp [hid]
    · simp [hid]

/-- C2: for two channels of the same guild with distinct ids the `connection`
lookup is non-null for at most one of them, and a channel for which it is
non-null has the id of the channel the guild voice connection is bound to. -/
theorem connection_at_most_one (c1 c2 : VoiceChannel)
    (hguild : c1.guild = c2.guild) (hid : c1.id ≠ c2.id) :
    (connection c1 = none ∨ connection c2 = none) ∧
    (∀ k, connection c1 = some k → c1.guild.voiceConnection = some k ∧ c1.id = k.channel.id) ∧
    (∀ k, connection c2 = some k → c2.guild.voiceConnection = some k ∧ c2.id = k.channel.id) := by
  have key : ∀ (c : VoiceChannel) (k : VoiceConnection), connection c = some k →
      c.guild.voiceConnection = some k ∧ c.id = k.channel.id := by
    intro c k h
    have := (connection_some_iff c k).1 h
    exact ⟨this.1, this.2.symm⟩
  refine ⟨?_, key c1, key c2⟩
  cases h1 : connection c1 with
  | none => exact Or.inl rfl
  | some k1 =>
    cases h2 : connection c2 with
    | none => exact Or.inr rfl
    | some k2 =>
      exfalso
      have a := key c1 k1 h1
      have b := key c2 k2 h2
      rw [hguild, b.1] at a
      have hk : k2 = k1 := Option.some.inj a.1
      subst hk
      exact hid (a.2.trans b.2.symm)

/-- Witness of C2 on channels `c1` and `c2` of guild `g1`: only `c1`, to which
the guild connection is bound, resolves a connection. -/
theorem connection_at_most_one_witness :
    connection chanA = some conn1 ∧ connection chanB = none ∧
    ((connection chanA = none ∨ connection chanB = none) ∧
    (∀ k, connection chanA = some k →
      chanA.guild.voiceConnection = some k ∧ chanA.id = k.channel.id) ∧
    (∀ k, connection chanB = some k →
      chanB.guild.voiceConnection = some k ∧ chanB.id = k.channel.id)) :=
  ⟨by decide, by decide, connection_at_most_one chanA chanB rfl (by decide)⟩

/-! ## The permission gate -/

/-- C8: `joinable` is true if and only if the environment supports voice
(`client.browser` is false) and the permission evaluator grants `CONNECT` to
the client user on this channel; in a browser it is false whatever the
permissions are. -/
theorem joinable_iff (permissionsFor : PermissionEvaluator) (c : VoiceChannel) :
    (joinable permissionsFor c = true ↔
      c.client.browser = false ∧ permissionsFor c c.client.user "CONNECT" = true) ∧
    (c.client.browser = true → joinable permissionsFor c = false) := by
  unfold joinable
  cases hb : c.client.browser <;> simp

/-- Witness of C8: outside a browser with `CONNECT` granted the channel is
joinable, inside a browser with the same grant it is not. -/
theorem joinable_iff_witness :
    joinable grantAll chanA = true ∧ joinable grantAll chanBrowser = false :=
  ⟨(joinable_iff grantAll chanA).1.2 ⟨rfl, rfl⟩, (joinable_iff grantAll chanBrowser).2 rfl⟩

/-! ## Joining -/

/-- C4: in a browser `join` returns a rejected promise (the failure the
specification calls `EnvironmentUnsupported`) and calls nothing, the object
graph being left as it was; outside a browser `join` calls
`client.voice.joinChannel` once with this channel, before anything that call
does itself, and returns exactly its result. -/
theorem join_environment (joinChannel : VoiceChannel → Outcome (Promise VoiceConnection))
    (c : VoiceChannel) :
    (c.client.browser = true →
      join joinChannel c = ⟨Except.error browserError, c, []⟩ ∧
      browserError.kind = ErrorKind.EnvironmentUnsupported) ∧
    (c.client.browser = false →
      (join joinChannel c).value = (joinChannel c).value ∧
      (join joinChannel c).self = (joinChannel c).self ∧
      (join joinChannel c).calls = Call.joinChannel c :: (joinChannel c).calls) := by
  unfold join
  cases hb : c.client.browser <;> simp [browserError]

/-- Witness of C4: in a browser the call list is empty, outside a browser the
voice manager is called once and its connection is returned. -/
theorem join_environment_witness :
    (join managerResolves chanBrowser).calls = [] ∧
    (join managerResolves chanA).value = Except.ok conn1 ∧
    (join managerResolves chanA).calls = [Call.joinChannel chanA] := by
  have hb := (join_environment managerResolves chanBrowser).1 rfl
  have ha := (join_environment managerResolves chanA).2 rfl
  refine ⟨by rw [hb.1], ?_, ?_⟩
  · rw [ha.1]; rfl
  · rw [ha.2.2]; rfl

/-! ## Leaving -/

/-- C5: when the registry has no entry for the guild of the channel, or the
entry is bound to a channel with another id, `leave` is a no-op whatever
`disconnect` would do: it returns normally, calls `disconnect` on no
connection and leaves the object graph, the registry included, as it was. In
particular a second `leave` on the state it returns does nothing again. -/
theorem leave_noop (disconnect : VoiceConnection → VoiceChannel → VoiceChannel)
    (c : VoiceChannel)
    (h : c.client.voice.connections.get c.guild.id = none ∨
      ∃ k, c.client.voice.connections.get c.guild.id = some k ∧ k.channel.id ≠ c.id) :
    leave disconnect c = ⟨(), c, []⟩ ∧
    leave disconnect (leave disconnect c).self = ⟨(), c, []⟩ := by
  have h1 : leave disconnect c = ⟨(), c, []⟩ := by
    unfold leave
    rcases h with h | ⟨k, hk, hne⟩
    · cases hb : c.client.browser <;> simp [h]
    · cases hb : c.client.browser <;> simp [hk, hne]
  refine ⟨h1, ?_⟩
  rw [h1]
  exact h1

/-- Witness of C5: `c2` is not the channel the registry entry of `g1` is
bound to, and `leave` on it calls nothing. -/
theorem leave_noop_witness :
    (leave disconnectKeeps chanB).calls = [] ∧ (leave disconnectKeeps chanB).self = chanB := by
  have h := (leave_noop disconnectKeeps chanB
    (Or.inr ⟨conn1, by simp [chanB, client1, registry1, guild1, Collection.set],
      by decide⟩)).1
  rw [h]
  exact ⟨rfl, rfl⟩

/-- C10: outside a browser, when `guild.voiceConnection` is what the registry
holds for the guild id, `leave` calls `disconnect` if and only if the
`connection` lookup is non-null, and on exactly the connection the lookup
returns; in a browser `leave` calls nothing, also on a channel whose lookup is
non-null. -/
theorem leave_agrees_with_connection
    (disconnect : VoiceConnection → VoiceChannel → VoiceChannel) (c : VoiceChannel) :
    (c.client.browser = false →
      c.guild.voiceConnection = c.client.voice.connections.get c.guild.id →
      (∀ k, connection c = some k → (leave disconnect c).calls = [Call.disconnect k]) ∧
      (connection c = none → (leave disconnect c).calls = [])) ∧
    (c.client.browser = true → (leave disconnect c).calls = []) ∧
    (connection chanBrowser = some conn1 ∧ chanBrowser.client.browser = true ∧
      (leave disconnect chanBrowser).calls = []) := by
  refine ⟨?_, ?_, ?_, rfl, rfl⟩
  · intro hb hagree
    unfold connection leave
    rw [hagree, hb]
    cases hg : c.client.voice.connections.get c.guild.id with
    | none => simp
    | some k0 =>
      by_cases hid : k0.channel.id = c.id
      · simp [hid]
      · simp [hid]
  · intro hb
    unfold leave
    simp [hb]
  · decide

/-- Witness of C10 on channel `c1`, where guild and registry agree on `conn1`:
`leave` disconnects `conn1`, the connection the lookup returns. -/
theorem leave_agrees_with_connection_witness :
    connection chanA = some conn1 ∧
    (leave disconnectKeeps chanA).calls = [Call.disconnect conn1] ∧
    (leave disconnectKeeps chanBrowser).calls = [] :=
  ⟨by decide,
    ((leave_agrees_with_connection disconnectKeeps chanA).1 rfl
      (by simp [chanA, client1, registry1, guild1, Collection.set])).1 conn1 (by decide),
    (leave_agrees_with_connection disconnectKeeps chanBrowser).2.1 rfl⟩

/-- C6: when the registry holds an entry for the guild of the channel whose
channel id equals the id of this channel (on an object graph the class can be
given, where no session is held in a browser), `leave` calls `disconnect`
once, on exactly that entry; with the teardown the specification describes,
the registry then has no entry for the guild and the `connection` lookup of
the channel returns none. -/
theorem leave_disconnects (c : VoiceChannel) (k : VoiceConnection)
    (hreceivable : receivable c)
    (hentry : c.client.voice.connections.get c.guild.id = some k)
    (hid : k.channel.id = c.id) :
    (∀ disconnect, (leave disconnect c).calls = [Call.disconnect k] ∧
      (leave disconnect c).self = disconnect k c) ∧
    (leave disconnectSpec c).self.client.voice.connections.get c.guild.id = none ∧
    connection (leave disconnectSpec c).self = none := by
  have hbrowser : c.client.browser = false := by
    cases hb : c.client.browser with
    | false => rfl
    | true =>
      have hnone := (hreceivable hb).1
      rw [hentry] at hnone
      cases hnone
  have hl : ∀ disconnect, leave disconnect c = ⟨(), disconnect k c, [Call.disconnect k]⟩ := by
    intro disconnect
    unfold leave
    simp [hbrowser, hentry, hid]
  refine ⟨fun disconnect => by rw [hl disconnect]; exact ⟨rfl, rfl⟩, ?_, ?_⟩
  · rw [hl disconnectSpec]
    simp [disconnectSpec, withRegistry, Collection.removeOwner, hentry]
  · rw [hl disconnectSpec]
    simp [connection, disconnectSpec, withRegistry, Collection.removeOwner, hentry]

/-- Witness of C6 on channel `c1` holding `conn1`. -/
theorem leave_disconnects_witness :
    receivable chanA ∧
    (leave disconnectSpec chanA).calls = [Call.disconnect conn1] ∧
    connection (leave disconnectSpec chanA).self = none := by
  have hr : receivable chanA := fun hb => absurd hb (by decide)
  have h := leave_disconnects chanA conn1 hr
    (by simp [chanA, client1, registry1, guild1, Collection.set]) (by decide)
  exact ⟨hr, (h.1 disconnectSpec).1, h.2.2⟩

/-! ## Joining through the voice session manager -/

/-- Counterexample to C3. In a browser, on a channel with no session anywhere
and `CONNECT` denied, `join` fails with the browser error, whose kind is
`EnvironmentUnsupported` and not `PermissionDenied`. -/
theorem join_permission_counterexample :
    receivable chanBrowserIdle ∧
    denyConnect chanBrowserIdle chanBrowserIdle.client.user "CONNECT" = false ∧
    join (joinChannelSpec denyConnect connectOk) chanBrowserIdle =
      ⟨Except.error browserError, chanBrowserIdle, []⟩ ∧
    browserError.kind = ErrorKind.EnvironmentUnsupported ∧
    browserError.kind ≠ ErrorKind.PermissionDenied :=
  ⟨fun _ => ⟨rfl, rfl⟩, by decide, rfl, rfl, by decide⟩

/-- C3, amended: outside a browser, when `CONNECT` is denied, `join` fails
with `PermissionDenied` and the transport negotiator is never invoked: `join`
hands the channel to `client.voice.joinChannel`, once, and with the voice
session manager the specification describes that call rejects before any
negotiation or teardown and leaves the object graph, registry included, as it
was. -/
theorem join_permission_denied (permissionsFor : PermissionEvaluator)
    (connect : VoiceChannel → Option Nat) (c : VoiceChannel)
    (hbrowser : c.client.browser = false)
    (hdenied : permissionsFor c c.client.user "CONNECT" = false) :
    join (joinChannelSpec permissionsFor connect) c =
      ⟨Except.error permissionDenied, c, [Call.joinChannel c]⟩ ∧
    permissionDenied.kind = ErrorKind.PermissionDenied ∧
    negotiations (join (joinChannelSpec permissionsFor connect) c).calls = 0 := by
  have h : join (joinChannelSpec permissionsFor connect) c =
      ⟨Except.error permissionDenied, c, [Call.joinChannel c]⟩ := by
    simp [join, joinChannelSpec, hbrowser, hdenied]
  refine ⟨h, rfl, ?_⟩
  rw [h]
  rfl

/-- Witness of C3, amended, on channel `c1` outside a browser with `CONNECT`
denied. -/
theorem join_permission_denied_witness :
    chanA.client.browser = false ∧
    denyConnect chanA chanA.client.user "CONNECT" = false ∧
    (join (joinChannelSpec denyConnect connectOk) chanA).value =
      Except.error permissionDenied ∧
    negotiations (join (joinChannelSpec denyConnect connectOk) chanA).calls = 0 := by
  have h := join_permission_denied denyConnect connectOk chanA rfl (by decide)
  refine ⟨rfl, by decide, ?_, h.2.2⟩
  rw [h.1]

/-- A channel that holds a connected session, outside a browser and with
`CONNECT` granted: the voice session manager returns the held connection and
`join` passes it on, with no other call than the one to the manager. -/
theorem join_held (permissionsFor : PermissionEvaluator) (connect : VoiceChannel → Option Nat)
    (c : VoiceChannel) (k : VoiceConnection)
    (hbrowser : c.client.browser = false)
    (hgranted : permissionsFor c c.client.user "CONNECT" = true)
    (hentry : c.client.voice.connections.get c.guild.id = some k)
    (hid : k.channel.id = c.id) :
    join (joinChannelSpec permissionsFor connect) c = ⟨Except.ok k, c, [Call.joinChannel c]⟩ := by
  simp [join, joinChannelSpec, hbrowser, hgranted, hentry, hid]

/-- A negotiation that resolves with `k`: `k` is bound to the channel, it is
the registry entry of the guild afterwards, and one negotiation was added. -/
theorem establish_resolves (connect : VoiceChannel → Option Nat) (s : VoiceChannel)
    (before : List Call) (k : VoiceConnection)
    (h : (establish connect s before).value = Except.ok k) :
    k.channel.id = s.id ∧
    (establish connect s before).self.client.browser = s.client.browser ∧
    (establish connect s before).self.id = s.id ∧
    (establish connect s before).self.client.voice.connections.get
      (establish connect s before).self.guild.id = some k ∧
    negotiations (establish connect s before).calls = negotiations before + 1 := by
  cases hc : connect s with
  | none => simp [establish, hc] at h
  | some handle =>
    simp only [establish, hc] at h ⊢
    have hk : (⟨⟨s.id⟩, handle⟩ : VoiceConnection) = k := by
      injection h
    subst hk
    simp [withRegistry, Collection.set, negotiations]

/-- Counterexample to C9. Channel `c1` holds the connected session `conn1`
outside a browser (registry and guild agree on it); with `CONNECT` denied to
the client user both calls of `join` are rejected by the voice session manager
with `PermissionDenied` and yield no connection. -/
theorem join_twice_counterexample :
    receivable chanA ∧
    connection chanA = some conn1 ∧
    chanA.client.voice.connections.get chanA.guild.id = some conn1 ∧
    (join (joinChannelSpec denyConnect connectOk) chanA).value =
      Except.error permissionDenied ∧
    (join (joinChannelSpec denyConnect connectOk)
      (join (joinChannelSpec denyConnect connectOk) chanA).self).value =
      Except.error permissionDenied := by
  have hA : join (joinChannelSpec denyConnect connectOk) chanA =
      ⟨Except.error permissionDenied, chanA, [Call.joinChannel chanA]⟩ := by
    simp [join, joinChannelSpec, chanA, client1, denyConnect]
  refine ⟨fun hb => absurd hb (by decide), by decide, ?_, ?_, ?_⟩
  · simp [chanA, client1, registry1, guild1, Collection.set]
  · rw [hA]
  · rw [hA, hA]

/-- C9, amended: with the voice session manager the specification describes
and `CONNECT` granted to the client user, on a channel that already holds a
connected session (on an object graph the class can be given, where no session
is held in a browser) two calls of `join` in succession both resolve with that
same connection, leave the object graph as it was and start no negotiation
(each call reaches the manager, which returns the held connection). And for
every channel: when the first of two calls in succession resolves with a
connection and `CONNECT` is granted at the second call, the second call
resolves with the same connection, bound to this channel, changes nothing and
starts no negotiation; the two calls together perform at most one negotiation,
and exactly one when the channel held no session before the first call.
Outside a browser, with `CONNECT` granted and a negotiator that succeeds for
this channel, the first call does resolve with a connection. -/
theorem join_twice_same_connection (permissionsFor : PermissionEvaluator)
    (connect : VoiceChannel → Option Nat) :
    (∀ (c : VoiceChannel) (k : VoiceConnection),
      receivable c →
      permissionsFor c c.client.user "CONNECT" = true →
      c.client.voice.connections.get c.guild.id = some k →
      k.channel.id = c.id →
      (join (joinChannelSpec permissionsFor connect) c).value = Except.ok k ∧
      (join (joinChannelSpec permissionsFor connect) c).self = c ∧
      (join (joinChannelSpec permissionsFor connect) c).calls = [Call.joinChannel c] ∧
      (join (joinChannelSpec permissionsFor connect)
        (join (joinChannelSpec permissionsFor connect) c).self).value = Except.ok k ∧
      (join (joinChannelSpec permissionsFor connect)
        (join (joinChannelSpec permissionsFor connect) c).self).self = c ∧
      negotiations ((join (joinChannelSpec permissionsFor connect) c).calls ++
        (join (joinChannelSpec permissionsFor connect)
          (join (joinChannelSpec permissionsFor connect) c).self).calls) = 0) ∧
    (∀ (c : VoiceChannel) (k : VoiceConnection),
      (join (joinChannelSpec permissionsFor connect) c).value = Except.ok k →
      permissionsFor (join (joinChannelSpec permissionsFor connect) c).self
        (join (joinChannelSpec permissionsFor connect) c).self.client.user "CONNECT" = true →
      k.channel.id = c.id ∧
      (join (joinChannelSpec permissionsFor connect)
        (join (joinChannelSpec permissionsFor connect) c).self).value = Except.ok k ∧
      (join (joinChannelSpec permissionsFor connect)
        (join (joinChannelSpec permissionsFor connect) c).self).self =
        (join (joinChannelSpec permissionsFor connect) c).self ∧
      negotiations (join (joinChannelSpec permissionsFor connect)
        (join (joinChannelSpec permissionsFor connect) c).self).calls = 0 ∧
      negotiations ((join (joinChannelSpec permissionsFor connect) c).calls ++
        (join (joinChannelSpec permissionsFor connect)
          (join (joinChannelSpec permissionsFor connect) c).self).calls) ≤ 1 ∧
      ((∀ k0, c.client.voice.connections.get c.guild.id = some k0 → k0.channel.id ≠ c.id) →
        negotiations ((join (joinChannelSpec permissionsFor connect) c).calls ++
          (join (joinChannelSpec permissionsFor connect)
            (join (joinChannelSpec permissionsFor connect) c).self).calls) = 1)) ∧
    (∀ (c : VoiceChannel),
      c.client.browser = false →
      permissionsFor c c.client.user "CONNECT" = true →
      (∀ s : VoiceChannel, s.id = c.id → connect s ≠ none) →
      ∃ k, (join (joinChannelSpec permissionsFor connect) c).value = Except.ok k) := by
  have hcons : ∀ (x : VoiceChannel) (l : List Call),
      negotiations (Call.joinChannel x :: l) = negotiations l := by
    intro x l
    simp [negotiations]
  have happ : ∀ (l1 l2 : List Call),
      negotiations (l1 ++ l2) = negotiations l1 + negotiations l2 := by
    intro l1 l2
    simp [negotiations]
  refine ⟨?_, ?_, ?_⟩
  · intro c k hreceivable hgranted hentry hid
    have hbrowser : c.client.browser = false := by
      cases hb : c.client.browser with
      | false => rfl
      | true =>
        have hnone := (hreceivable hb).1
        rw [hentry] at hnone
        cases hnone
    have h1 := join_held permissionsFor connect c k hbrowser hgranted hentry hid
    simp only [h1]
    simp [negotiations]
  · intro c k hval hgranted2
    have hbrowser : c.client.browser = false := by
      cases hb : c.client.browser with
      | false => rfl
      | true => simp [join, hb] at hval
    have hjoin : join (joinChannelSpec permissionsFor connect) c =
        ⟨(joinChannelSpec permissionsFor connect c).value,
          (joinChannelSpec permissionsFor connect c).self,
          Call.joinChannel c :: (joinChannelSpec permissionsFor connect c).calls⟩ := by
      simp [join, hbrowser]
    rw [hjoin] at hval hgranted2
    simp only at hval hgranted2
    have hgranted : permissionsFor c c.client.user "CONNECT" = true := by
      cases hp : permissionsFor c c.client.user "CONNECT" with
      | true => rfl
      | false => simp [joinChannelSpec, hbrowser, hp] at hval
    have facts : k.channel.id = c.id ∧
        (joinChannelSpec permissionsFor connect c).self.client.browser = false ∧
        (joinChannelSpec permissionsFor connect c).self.id = c.id ∧
        (joinChannelSpec permissionsFor connect c).self.client.voice.connections.get
          (joinChannelSpec permissionsFor connect c).self.guild.id = some k ∧
        negotiations (joinChannelSpec permissionsFor connect c).calls ≤ 1 ∧
        ((∀ k0, c.client.voice.connections.get c.guild.id = some k0 → k0.channel.id ≠ c.id) →
          negotiations (joinChannelSpec permissionsFor connect c).calls = 1) := by
      cases hreg : c.client.voice.connections.get c.guild.id with
      | none =>
        have hspec : joinChannelSpec permissionsFor connect c = establish connect c [] := by
          simp [joinChannelSpec, hbrowser, hgranted, hreg]
        rw [hspec] at hval ⊢
        have e := establish_resolves connect c [] k hval
        have hzero : negotiations ([] : List Call) = 0 := rfl
        rw [hzero] at e
        exact ⟨e.1, e.2.1.trans hbrowser, e.2.2.1, e.2.2.2.1, le_of_eq e.2.2.2.2,
          fun _ => e.2.2.2.2⟩
      | some k0 =>
        by_cases hid0 : k0.channel.id = c.id
        · have hspec : joinChannelSpec permissionsFor connect c = ⟨Except.ok k0, c, []⟩ := by
            simp [joinChannelSpec, hbrowser, hgranted, hreg, hid0]
          rw [hspec] at hval ⊢
          have hk : k0 = k := by
            injection hval
          subst hk
          exact ⟨hid0, hbrowser, rfl, hreg, Nat.zero_le 1,
            fun hfree => absurd hid0 (hfree k0 rfl)⟩
        · have hspec : joinChannelSpec permissionsFor connect c =
              establish connect (disconnectSpec k0 c) [Call.disconnect k0] := by
            simp [joinChannelSpec, hbrowser, hgranted, hreg, hid0]
          rw [hspec] at hval ⊢
          have e := establish_resolves connect (disconnectSpec k0 c) [Call.disconnect k0] k hval
          have hzero : negotiations [Call.disconnect k0] = 0 := rfl
          rw [hzero] at e
          have hsid : (disconnectSpec k0 c).id = c.id := rfl
          have hsb : (disconnectSpec k0 c).client.browser = c.client.browser := rfl
          exact ⟨e.1.trans hsid, e.2.1.trans (hsb.trans hbrowser), e.2.2.1.trans hsid,
            e.2.2.2.1, le_of_eq e.2.2.2.2, fun _ => e.2.2.2.2⟩
    obtain ⟨hkid, hsb, hsid, hsreg, hle, hone⟩ := facts
    have hjoin2 := join_held permissionsFor connect
      (joinChannelSpec permissionsFor connect c).self k hsb hgranted2 hsreg (hkid.trans hsid.symm)
    rw [hjoin]
    simp only [hjoin2, happ, hcons]
    have hnil : negotiations ([] : List Call) = 0 := rfl
    refine ⟨hkid, trivial, trivial, hnil, ?_, ?_⟩
    · rw [hnil]
      exact hle
    · intro hfree
      rw [hnil, hone hfree]
  · intro c hbrowser hgranted hconnect
    cases hreg : c.client.voice.connections.get c.guild.id with
    | none =>
      cases hc : connect c with
      | none => exact absurd hc (hconnect c rfl)
      | some handle =>
        exact ⟨⟨⟨c.id⟩, handle⟩,
          by simp [join, joinChannelSpec, establish, hbrowser, hgranted, hreg, hc]⟩
    | some k0 =>
      by_cases hid0 : k0.channel.id = c.id
      · exact ⟨k0, by simp [join, joinChannelSpec, hbrowser, hgranted, hreg, hid0]⟩
      · cases hc : connect (disconnectSpec k0 c) with
        | none => exact absurd hc (hconnect (disconnectSpec k0 c) rfl)
        | some handle =>
          refine ⟨⟨⟨c.id⟩, handle⟩, ?_⟩
          simp only [join, joinChannelSpec, hbrowser, hgranted, hreg, hid0, establish, hc]
          simp [disconnectSpec, withRegistry]

/-- Witness of C9, amended: on channel `c1`, which holds `conn1`, both calls
resolve with `conn1`; on the idle channel both resolve with the connection
negotiated by the first call, after exactly one negotiation. -/
theorem join_twice_same_connection_witness :
    ((join (joinChannelSpec grantAll connectOk) chanA).value = Except.ok conn1 ∧
      (join (joinChannelSpec grantAll connectOk)
        (join (joinChannelSpec grantAll connectOk) chanA).self).value = Except.ok conn1) ∧
    ((join (joinChannelSpec grantAll connectOk) chanIdle).value = Except.ok ⟨⟨"c1"⟩, 42⟩ ∧
      (join (joinChannelSpec grantAll connectOk)
        (join (joinChannelSpec grantAll connectOk) chanIdle).self).value =
        Except.ok ⟨⟨"c1"⟩, 42⟩ ∧
      negotiations ((join (joinChannelSpec grantAll connectOk) chanIdle).calls ++
        (join (joinChannelSpec grantAll connectOk)
          (join (joinChannelSpec grantAll connectOk) chanIdle).self).calls) = 1) := by
  have hfirst : (join (joinChannelSpec grantAll connectOk) chanIdle).value =
      Except.ok ⟨⟨"c1"⟩, 42⟩ := by
    simp [join, joinChannelSpec, establish, chanIdle, clientIdle, guildIdle, grantAll,
      connectOk, Collection.empty]
  constructor
  · have h := (join_twice_same_connection grantAll connectOk).1 chanA conn1
      (fun hb => absurd hb (by decide)) rfl
      (by simp [chanA, client1, registry1, guild1, Collection.set]) (by decide)
    exact ⟨h.1, h.2.2.2.1⟩
  · have h := (join_twice_same_connection grantAll connectOk).2.1 chanIdle ⟨⟨"c1"⟩, 42⟩
      hfirst rfl
    exact ⟨hfirst, h.2.1, h.2.2.2.2.2
      (fun k0 hk => by simp [chanIdle, clientIdle, guildIdle, Collection.empty] at hk)⟩

/-! ## Configuration -/

/-- C7: with the `edit` the specification describes, `setUserLimit` with a
negative value and `setBitrate` with a value above the platform maximum fail
with `InvalidConfiguration`; nothing is sent to the remote authority and the
channel, its `bitrate` and `userLimit` fields included, is the same after the
failed call as before it. -/
theorem set_out_of_range (bounds : PlatformBounds) (remote : ChannelData → Bool)
    (c : VoiceChannel) (userLimit bitrate : Int)
    (hlimit : userLimit < 0) (hrate : bounds.maxBitrate < bitrate) :
    (setUserLimit (editSpec bounds remote) c userLimit =
        ⟨Except.error invalidConfiguration, c, []⟩ ∧
      (setUserLimit (editSpec bounds remote) c userLimit).self.bitrate = c.bitrate ∧
      (setUserLimit (editSpec bounds remote) c userLimit).self.userLimit = c.userLimit) ∧
    (setBitrate (editSpec bounds remote) c bitrate =
        ⟨Except.error invalidConfiguration, c, []⟩ ∧
      (setBitrate (editSpec bounds remote) c bitrate).self.bitrate = c.bitrate ∧
      (setBitrate (editSpec bounds remote) c bitrate).self.userLimit = c.userLimit) ∧
    invalidConfiguration.kind = ErrorKind.InvalidConfiguration := by
  have hu : setUserLimit (editSpec bounds remote) c userLimit =
      ⟨Except.error invalidConfiguration, c, []⟩ := by
    have : ¬ (0 ≤ userLimit) := not_le.mpr hlimit
    simp [setUserLimit, editSpec, withinBound, this]
  have hr : setBitrate (editSpec bounds remote) c bitrate =
      ⟨Except.error invalidConfiguration, c, []⟩ := by
    have : ¬ (bitrate ≤ bounds.maxBitrate) := not_le.mpr hrate
    simp [setBitrate, editSpec, withinBound, this]
  refine ⟨⟨hu, ?_, ?_⟩, ⟨hr, ?_, ?_⟩, rfl⟩
  · rw [hu]
  · rw [hu]
  · rw [hr]
  · rw [hr]

/-- Witness of C7: `setUserLimit(-1)` and `setBitrate(96001)` with a platform
maximum of 96000 both fail and leave the channel as it was, while
`setUserLimit(42)` is accepted. -/
theorem set_out_of_range_witness :
    (setUserLimit (editSpec bounds1 remoteAccept) chanA (-1)).value =
      Except.error invalidConfiguration ∧
    (setUserLimit (editSpec bounds1 remoteAccept) chanA (-1)).self.userLimit = 10 ∧
    (setBitrate (editSpec bounds1 remoteAccept) chanA 96001).value =
      Except.error invalidConfiguration ∧
    (setBitrate (editSpec bounds1 remoteAccept) chanA 96001).self.bitrate = 64000 ∧
    (setUserLimit (editSpec bounds1 remoteAccept) chanA 42).self.userLimit = 42 := by
  have h := set_out_of_range bounds1 remoteAccept chanA (-1) 96001 (by decide) (by decide)
  refine ⟨by rw [h.1.1], by rw [h.1.2.2]; rfl, by rw [h.2.1.1], by rw [h.2.1.2.1]; rfl, ?_⟩
  simp [setUserLimit, editSpec, withinBound, bounds1, remoteAccept]

end VoiceChannelModel
